import Mathlib

/-!
Verification of the popsec core (pop-os/popsec): the TPM2-TOTP sealing
engine's status-code decoding, the domain-error / named-error bridge, the
DBus client and daemon startup, and the GTK client poller's TOTP-window
computation, shallowly embedded from the Rust sources.
-/

namespace PopSec

/-! ## Data model

The domain error taxonomy, from the `TotpError` enum in `src/tpm2_totp.rs`.
-/

inductive TotpError where
  | NoPasswordProvided
  | SecretHasNoPassword
  | SecretAlreadyExists
  | SecretNotFound
  | SystemStateChanged
  | WrongPassword
  | Lockout
  | Other (msg : String)
deriving DecidableEq, Repr

/-- The `Display` rendering of each variant, from the `#[error(...)]`
attributes on `TotpError` in `src/tpm2_totp.rs` (`Other` renders as its
payload, per the attribute on that variant). -/
def TotpError.toMessage : TotpError → String
  | .NoPasswordProvided => "No recovery password for the TOTP secret was given"
  | .SecretHasNoPassword =>
      "The TOTP secret has not been stored with a recovery password and thus cannot be retrieved"
  | .SecretAlreadyExists => "A TOTP secret is already stored"
  | .SecretNotFound => "No TOTP secret is currently stored"
  | .SystemStateChanged => "The system state has changed, no TOTP could be calculated"
  | .WrongPassword => "Wrong recovery password for the TOTP secret"
  | .Lockout => "The password has been entered wrongly too many times and the TPM is in lockout mode"
  | .Other msg => msg

/-! ## Error taxonomy bridge, from `src/dbus.rs`

A `dbus::Error` is modelled as its observable pair: the optional error name
and the optional message.  `new_custom` stores both strings verbatim.
-/

structure DBusError where
  name : Option String
  message : Option String
deriving DecidableEq, Repr

def DBusError.newCustom (name message : String) : DBusError :=
  { name := some name, message := some message }

/-- The name chosen for each variant by `impl From<TotpError> for dbus::Error`
in `src/dbus.rs`. -/
def TotpError.toName : TotpError → String
  | .NoPasswordProvided => "com.system76.PopSec.Error.NoPasswordProvided"
  | .SecretHasNoPassword => "com.system76.PopSec.Error.SecretHasNoPassword"
  | .SecretAlreadyExists => "com.system76.PopSec.Error.SecretAlreadyExists"
  | .SecretNotFound => "com.system76.PopSec.Error.SecretNotFound"
  | .SystemStateChanged => "com.system76.PopSec.Error.SystemStateChanged"
  | .WrongPassword => "com.system76.PopSec.Error.WrongPassword"
  | .Lockout => "com.system76.PopSec.Error.Lockout"
  | .Other _ => "com.system76.PopSec.Error.Other"

/-- `impl From<TotpError> for dbus::Error` (src/dbus.rs): the transport error
carries the variant's fixed name and the variant's `Display` rendering as the
message (`dbus::Error::new_custom(name, &err.to_string())`). -/
def dbusErrorOfTotp (err : TotpError) : DBusError :=
  DBusError.newCustom err.toName err.toMessage

/-- `impl TryFrom<dbus::Error> for TotpError` (src/dbus.rs): an error without
a name, or with an unrecognized name, is handed back unchanged as `Err`; each
of the eight known names maps to its variant, the `Other` name recovering the
message (empty when absent). -/
def totpOfDbusError (dbus : DBusError) : Except DBusError TotpError :=
  match dbus.name with
  | none => .error dbus
  | some dbusName =>
    if dbusName = "com.system76.PopSec.Error.NoPasswordProvided" then
      .ok .NoPasswordProvided
    else if dbusName = "com.system76.PopSec.Error.SecretHasNoPassword" then
      .ok .SecretHasNoPassword
    else if dbusName = "com.system76.PopSec.Error.SecretAlreadyExists" then
      .ok .SecretAlreadyExists
    else if dbusName = "com.system76.PopSec.Error.SecretNotFound" then
      .ok .SecretNotFound
    else if dbusName = "com.system76.PopSec.Error.SystemStateChanged" then
      .ok .SystemStateChanged
    else if dbusName = "com.system76.PopSec.Error.WrongPassword" then
      .ok .WrongPassword
    else if dbusName = "com.system76.PopSec.Error.Lockout" then
      .ok .Lockout
    else if dbusName = "com.system76.PopSec.Error.Other" then
      .ok (.Other (dbus.message.getD ""))
    else
      .error dbus

/-- The eight names recognized by `TryFrom<dbus::Error> for TotpError`. -/
def knownErrorNames : List String :=
  [ "com.system76.PopSec.Error.NoPasswordProvided"
  , "com.system76.PopSec.Error.SecretHasNoPassword"
  , "com.system76.PopSec.Error.SecretAlreadyExists"
  , "com.system76.PopSec.Error.SecretNotFound"
  , "com.system76.PopSec.Error.SystemStateChanged"
  , "com.system76.PopSec.Error.WrongPassword"
  , "com.system76.PopSec.Error.Lockout"
  , "com.system76.PopSec.Error.Other" ]

/-! ## Sealing engine status-code decoding, from `src/tpm2_totp.rs`

TPM2 return-code constants, with the values of `tss_esapi::constants::tss`
(TPM 2.0 Part 2: `TPM2_RC_FMT1 = 0x080`, `TPM2_RC_VER1 = 0x100`,
`TPM2_RC_WARN = 0x900`; handle/parameter index labels `TPM2_RC_N` are
`N <<< 8`).  Raw codes are C `int`s, modelled as `Int`.
-/

abbrev TPM2_RC_HANDLE : Int := 0x08B
abbrev TPM2_RC_AUTH_FAIL : Int := 0x08E
abbrev TPM2_RC_POLICY_FAIL : Int := 0x09D
abbrev TPM2_RC_NV_DEFINED : Int := 0x14C
abbrev TPM2_RC_LOCKOUT : Int := 0x921
abbrev TPM2_RC_1 : Int := 0x100
abbrev TPM2_RC_2 : Int := 0x200
abbrev TPM2_RC_9 : Int := 0x900

/-- The status codes recognized by `TotpError::from_rc`, exactly as computed
there (two library-level negative codes, and five TPM codes, three being a
base OR a fixed handle/parameter index). -/
abbrev RC_NO_PASSWORD_PROVIDED : Int := -10
abbrev RC_SECRET_HAS_NO_PASSWORD : Int := -20
abbrev RC_SECRET_ALREADY_EXISTS : Int := TPM2_RC_NV_DEFINED
abbrev RC_SECRET_NOT_FOUND : Int := Int.lor TPM2_RC_HANDLE TPM2_RC_1
abbrev RC_SYSTEM_STATE_CHANGED : Int := Int.lor TPM2_RC_POLICY_FAIL TPM2_RC_9
abbrev RC_WRONG_PASSWORD : Int := Int.lor TPM2_RC_AUTH_FAIL TPM2_RC_9
abbrev RC_LOCKOUT : Int := TPM2_RC_LOCKOUT

/-- Rust's `{:x}` rendering of a `c_int`: lower-case hex of the 32-bit
two's-complement bit pattern. -/
def hexOfRc (rc : Int) : String :=
  String.mk (Nat.toDigits 16 ((rc % (2 ^ 32)).toNat))

/-- `TotpError::from_rc` (src/tpm2_totp.rs): a literal match of the raw code
against the seven recognized values; everything else becomes `Other` carrying
the raw value, rendered by `format!("unknown (0x{:x}", rc)` (the source
string is missing its closing parenthesis). -/
def TotpError.fromRc (rc : Int) : TotpError :=
  if rc = RC_NO_PASSWORD_PROVIDED then .NoPasswordProvided
  else if rc = RC_SECRET_HAS_NO_PASSWORD then .SecretHasNoPassword
  else if rc = RC_SECRET_ALREADY_EXISTS then .SecretAlreadyExists
  else if rc = RC_SECRET_NOT_FOUND then .SecretNotFound
  else if rc = RC_SYSTEM_STATE_CHANGED then .SystemStateChanged
  else if rc = RC_WRONG_PASSWORD then .WrongPassword
  else if rc = RC_LOCKOUT then .Lockout
  else .Other ("unknown (0x" ++ hexOfRc rc)

/-- The list of recognized status codes. -/
abbrev knownRcs : List Int :=
  [ RC_NO_PASSWORD_PROVIDED, RC_SECRET_HAS_NO_PASSWORD, RC_SECRET_ALREADY_EXISTS
  , RC_SECRET_NOT_FOUND, RC_SYSTEM_STATE_CHANGED, RC_WRONG_PASSWORD, RC_LOCKOUT ]

/-! ## Sealing engine `reseal`, from `src/tpm2_totp.rs`

`Tpm2Totp::reseal` issues up to four hardware operations; the hardware is
modelled as the status code each primitive would return, and a run is the
pair (result, trace of operations issued, in order).
-/

inductive TpmOp where
  | loadKey (nvIndex : Nat)
  | reseal (pcrs banks : Nat)
  | deleteKey (nvIndex : Nat)
  | storeKey (nvIndex : Nat)
deriving DecidableEq, Repr

/-- PCR selection mask: PCRs 0, 2 and 7 (`Tpm2Totp::PCRS`). -/
abbrev Tpm2Totp.PCRS : Nat := 1 <<< 0 ||| 1 <<< 2 ||| 1 <<< 7

/-- Digest-bank mask: banks 0 and 1, SHA1 and SHA256 (`Tpm2Totp::BANKS`). -/
abbrev Tpm2Totp.BANKS : Nat := 1 <<< 0 ||| 1 <<< 1

/-- The single fixed NVRAM slot index (`Tpm2Totp::NVRAM_INDEX`). -/
abbrev Tpm2Totp.NVRAM_INDEX : Nat := 0x018094AF

/-- The status code each hardware primitive reports when invoked in this
run. -/
structure TpmBehavior where
  loadRc : Int
  resealRc : Int
  deleteRc : Int
  storeRc : Int

/-- Whether `CString::new(password)` fails: it does exactly when the string
holds an interior NUL byte (positions modelled over characters, which agrees
with bytes on ASCII passwords). -/
def passwordHasNul (password : String) : Bool :=
  password.data.any (fun c => c = Char.ofNat 0)

/-- Position reported by the `NulError` from `CString::new`. -/
def nulErrorPos (password : String) : Nat :=
  password.data.findIdx (fun c => c = Char.ofNat 0)

/-- `Tpm2Totp::reseal` (src/tpm2_totp.rs): load the old blob from the fixed
slot; convert the password to a C string; reseal under the PCR/bank policy
and new password; delete the old blob; store the new blob.  Each nonzero
status code aborts with `TotpError::from_rc`, the C-string failure with
`Other`.  The second component is the trace of hardware operations issued. -/
def Tpm2Totp.reseal (tpm : TpmBehavior) (password : String) :
    Except TotpError Unit × List TpmOp :=
  if tpm.loadRc ≠ 0 then
    (.error (TotpError.fromRc tpm.loadRc), [.loadKey NVRAM_INDEX])
  else if passwordHasNul password then
    (.error (.Other ("failed to convert password to C string: " ++
        "nul byte found in provided data at position: " ++
        toString (nulErrorPos password))),
     [.loadKey NVRAM_INDEX])
  else if tpm.resealRc ≠ 0 then
    (.error (TotpError.fromRc tpm.resealRc),
     [.loadKey NVRAM_INDEX, .reseal PCRS BANKS])
  else if tpm.deleteRc ≠ 0 then
    (.error (TotpError.fromRc tpm.deleteRc),
     [.loadKey NVRAM_INDEX, .reseal PCRS BANKS, .deleteKey NVRAM_INDEX])
  else if tpm.storeRc ≠ 0 then
    (.error (TotpError.fromRc tpm.storeRc),
     [.loadKey NVRAM_INDEX, .reseal PCRS BANKS, .deleteKey NVRAM_INDEX,
      .storeKey NVRAM_INDEX])
  else
    (.ok (),
     [.loadKey NVRAM_INDEX, .reseal PCRS BANKS, .deleteKey NVRAM_INDEX,
      .storeKey NVRAM_INDEX])

/-! ## RPC transport constants and client, from `src/dbus.rs` -/

def DBUS_DEST : String := "com.system76.PopSec"
def DBUS_IFACE : String := DBUS_DEST
def DBUS_PATH : String := "/com/system76/PopSec"
def METHOD_TPM2_TOTP_SHOW : String := "Tpm2TotpShow"

/-- A DBus reply argument, as far as `read1::<u64>` can observe it. -/
inductive DBusArg where
  | u64Val (v : Nat)
  | otherArg
deriving DecidableEq, Repr

structure ReplyMessage where
  args : List DBusArg
deriving DecidableEq, Repr

/-- `Message::read1::<u64>`: reads the first argument when it is a `u64`,
a type-mismatch failure otherwise. -/
def ReplyMessage.read1U64 : ReplyMessage → Option Nat
  | ⟨.u64Val v :: _⟩ => some v
  | _ => none

/-- The TOTP code newtype (`TotpCode(pub u64)` in src/tpm2_totp.rs). -/
structure TotpCode where
  val : Nat
deriving DecidableEq, Repr

/-- The client-side error enum `Error` of src/dbus.rs: every variant is a
transport-level failure class; none embeds a `TotpError`. -/
inductive ClientError where
  | ArgumentMismatch (method : String)
  | Call (method : String) (source : DBusError)
  | Connection (source : DBusError)
  | NewMethodCall (method : String) (why : String)
deriving DecidableEq, Repr

/-- `Client::call_method` (src/dbus.rs): build the method call (failure
becomes `NewMethodCall`), send and block for the reply (failure becomes
`Call` wrapping the dbus error unchanged). -/
def callMethod (method : String) (newCall : Except String Unit)
    (sendResult : Except DBusError ReplyMessage) :
    Except ClientError ReplyMessage :=
  match newCall with
  | .error why => .error (.NewMethodCall method why)
  | .ok _ =>
    match sendResult with
    | .error why => .error (.Call method why)
    | .ok m => .ok m

/-- `Client::tpm2_totp_show` (src/dbus.rs): call `Tpm2TotpShow`, then read
the single `u64` reply argument (mismatch becomes `ArgumentMismatch`). -/
def Client.tpm2TotpShow (newCall : Except String Unit)
    (sendResult : Except DBusError ReplyMessage) :
    Except ClientError TotpCode :=
  match callMethod METHOD_TPM2_TOTP_SHOW newCall sendResult with
  | .error e => .error e
  | .ok m =>
    match m.read1U64 with
    | some v => .ok ⟨v⟩
    | none => .error (.ArgumentMismatch METHOD_TPM2_TOTP_SHOW)

/-! ## Daemon startup, from `src/daemon/src/main.rs`

The environment records the effective UID and what each external call would
return; a run is the pair (result, trace of bus actions issued, in order).
Per the `dbus` crate, `request_name(name, allow_replacement,
replace_existing, do_not_queue)` returns a `RequestNameReply` on success,
which `daemon` discards with `?`.
-/

inductive RequestNameReply where
  | PrimaryOwner
  | InQueue
  | Exists
  | AlreadyOwner
deriving DecidableEq, Repr

inductive DaemonAction where
  | connect
  | requestName (name : String) (allowReplacement replaceExisting doNotQueue : Bool)
  | serve
deriving DecidableEq, Repr

structure DaemonEnv where
  euid : Nat
  connectResult : Except String Unit
  requestNameResult : Except String RequestNameReply
  serveResult : Except String Unit

/-- `daemon()` (src/daemon/src/main.rs): refuse unless effective UID is 0;
connect to the system bus; `request_name(DBUS_DEST, false, true, false)`
discarding the reply value; register the interface and serve. -/
def daemon (env : DaemonEnv) : Except String Unit × List DaemonAction :=
  if env.euid ≠ 0 then (.error "must be run as root", [])
  else
    match env.connectResult with
    | .error e => (.error e, [.connect])
    | .ok _ =>
      match env.requestNameResult with
      | .error e =>
          (.error e, [.connect, .requestName DBUS_DEST false true false])
      | .ok _ =>
          (env.serveResult,
           [.connect, .requestName DBUS_DEST false true false, .serve])

/-- `main()` (src/daemon/src/main.rs): exit status 1 when `daemon` returns
an error, 0 otherwise. -/
def mainExitCode (env : DaemonEnv) : Nat :=
  match (daemon env).1 with
  | .ok _ => 0
  | .error _ => 1

/-! ## Client poller window computation, from `src/gtk/src/lib.rs`

The poller truncates the current UTC time to whole seconds
(`with_nanosecond(0)`) and computes the end of the current TOTP window:
`with_second(30)` when the seconds-of-minute are below 30, otherwise
`with_second(0) + 1 minute`.  Time is modelled as whole seconds. -/

def windowEnd (start : Nat) : Nat :=
  if start % 60 < 30 then start - start % 60 + 30
  else start - start % 60 + 60

end PopSec

namespace PopSec

/-- C1: for every `DomainError` variant, converting to the named transport
error (`From<TotpError> for dbus::Error`) and back
(`TryFrom<dbus::Error> for TotpError`) reproduces the same variant; in
particular `Other msg` comes back as `Other msg`, the message preserved
exactly. -/
theorem totp_error_roundtrip (e : TotpError) :
    totpOfDbusError (dbusErrorOfTotp e) = .ok e := by
  cases e <;> rfl

/-- C1 witness: the round trip at a concrete `Other` value preserves the
message exactly. -/
theorem totp_error_roundtrip_witness :
    totpOfDbusError (dbusErrorOfTotp (.Other "boom")) = .ok (.Other "boom") :=
  totp_error_roundtrip (.Other "boom")

/-- C2 counterexample: the claim says an unrecognized name falls back to
`Other` carrying the original message verbatim, but the reverse mapping
returns the error unchanged as `Err` instead of `Ok (Other "boom")`. -/
theorem totp_unknown_name_not_other :
    totpOfDbusError (DBusError.newCustom "org.freedesktop.DBus.Error.Failed" "boom")
      = .error (DBusError.newCustom "org.freedesktop.DBus.Error.Failed" "boom") ∧
    totpOfDbusError (DBusError.newCustom "org.freedesktop.DBus.Error.Failed" "boom")
      ≠ .ok (TotpError.Other "boom") := by
  refine ⟨rfl, ?_⟩
  intro hcontra
  rw [show totpOfDbusError (DBusError.newCustom "org.freedesktop.DBus.Error.Failed" "boom")
        = .error (DBusError.newCustom "org.freedesktop.DBus.Error.Failed" "boom") from rfl]
    at hcontra
  exact Except.noConfusion hcontra

/-- C2 amended: the reverse mapping reconstructs the exact originating
variant for each of the eight known names (the `Other` name recovering the
carried message), and for a named error whose name is unrecognized it fails,
returning the original transport error unchanged, rather than falling back
to `Other`. -/
theorem totp_of_dbus_error_cases (d : DBusError) (n : String)
    (h : d.name = some n) :
    (n ∉ knownErrorNames → totpOfDbusError d = .error d) ∧
    (n ∈ knownErrorNames → ∃ e : TotpError,
      totpOfDbusError d = .ok e ∧ e.toName = n) ∧
    (n = "com.system76.PopSec.Error.Other" →
      totpOfDbusError d = .ok (.Other (d.message.getD ""))) := by
  refine ⟨?_, ?_, ?_⟩
  · intro hnot
    simp only [knownErrorNames, List.mem_cons, List.not_mem_nil, or_false,
      not_or] at hnot
    obtain ⟨h1, h2, h3, h4, h5, h6, h7, h8⟩ := hnot
    simp [totpOfDbusError, h, h1, h2, h3, h4, h5, h6, h7, h8]
  · intro hmem
    simp only [knownErrorNames, List.mem_cons, List.not_mem_nil, or_false] at hmem
    rcases hmem with h1 | h1 | h1 | h1 | h1 | h1 | h1 | h1 <;> subst h1
    · exact ⟨.NoPasswordProvided, by simp [totpOfDbusError, h], rfl⟩
    · exact ⟨.SecretHasNoPassword, by simp [totpOfDbusError, h], rfl⟩
    · exact ⟨.SecretAlreadyExists, by simp [totpOfDbusError, h], rfl⟩
    · exact ⟨.SecretNotFound, by simp [totpOfDbusError, h], rfl⟩
    · exact ⟨.SystemStateChanged, by simp [totpOfDbusError, h], rfl⟩
    · exact ⟨.WrongPassword, by simp [totpOfDbusError, h], rfl⟩
    · exact ⟨.Lockout, by simp [totpOfDbusError, h], rfl⟩
    · exact ⟨.Other (d.message.getD ""), by simp [totpOfDbusError, h], rfl⟩
  · intro h1
    subst h1
    simp [totpOfDbusError, h]

/-- C2 amended, witness: a concrete named error with the `SecretNotFound`
name reconstructs to `SecretNotFound`. -/
theorem totp_of_dbus_error_cases_witness :
    ∃ e : TotpError,
      totpOfDbusError (DBusError.newCustom
        "com.system76.PopSec.Error.SecretNotFound" "No TOTP secret is currently stored")
        = .ok e ∧ e.toName = "com.system76.PopSec.Error.SecretNotFound" :=
  (totp_of_dbus_error_cases
    (DBusError.newCustom "com.system76.PopSec.Error.SecretNotFound"
      "No TOTP secret is currently stored")
    "com.system76.PopSec.Error.SecretNotFound" rfl).2.1 (by decide)

/-- C3 counterexample: the claim says any code whose base matches a known
mask decodes to the corresponding variant for any handle/parameter index,
never to `Other`; but `TPM2_RC_HANDLE` OR index 2 (`0x28B`) decodes to
`Other`, not to `SecretNotFound` — `from_rc` compares literally against the
whole value `TPM2_RC_HANDLE | TPM2_RC_1`, not by mask membership. -/
theorem from_rc_masked_index_counterexample :
    TotpError.fromRc (Int.lor TPM2_RC_HANDLE TPM2_RC_2) = .Other "unknown (0x28b" ∧
    TotpError.fromRc (Int.lor TPM2_RC_HANDLE TPM2_RC_2) ≠ .SecretNotFound := by
  decide

/-- C3 amended: `from_rc` decodes by literal equality against seven whole
status-code values (each TPM code being a base OR one fixed index), so a
variant is produced exactly at its one recognized code, and every other code
— including one with a known base but a different handle/parameter index —
degrades to `Other` carrying the raw value in hex. -/
theorem from_rc_literal_match (rc : Int) :
    (TotpError.fromRc rc = .SecretNotFound ↔ rc = RC_SECRET_NOT_FOUND) ∧
    (TotpError.fromRc rc = .SystemStateChanged ↔ rc = RC_SYSTEM_STATE_CHANGED) ∧
    (TotpError.fromRc rc = .WrongPassword ↔ rc = RC_WRONG_PASSWORD) ∧
    (rc ∉ knownRcs →
      TotpError.fromRc rc = .Other ("unknown (0x" ++ hexOfRc rc)) := by
  unfold TotpError.fromRc
  split_ifs with h1 h2 h3 h4 h5 h6 h7
  · subst h1; decide
  · subst h2; decide
  · subst h3; decide
  · subst h4; decide
  · subst h5; decide
  · subst h6; decide
  · subst h7; decide
  · simp [knownRcs, h1, h2, h3, h4, h5, h6, h7]

/-- C3 amended, witness: the unrecognized code 1000 decodes to `Other`
carrying its hex rendering. -/
theorem from_rc_literal_match_witness :
    TotpError.fromRc 1000 = .Other ("unknown (0x" ++ hexOfRc 1000) :=
  (from_rc_literal_match 1000).2.2.2 (by decide)

/-- C4: every successful run of `reseal(password)` issues exactly the
hardware operations load, reseal, delete, store, in that order, every
slot-addressed operation against the single fixed NVRAM index. -/
theorem reseal_success_op_sequence (tpm : TpmBehavior) (password : String)
    (h : (Tpm2Totp.reseal tpm password).1 = .ok ()) :
    (Tpm2Totp.reseal tpm password).2 =
      [.loadKey Tpm2Totp.NVRAM_INDEX, .reseal Tpm2Totp.PCRS Tpm2Totp.BANKS,
       .deleteKey Tpm2Totp.NVRAM_INDEX, .storeKey Tpm2Totp.NVRAM_INDEX] := by
  unfold Tpm2Totp.reseal at h ⊢
  split_ifs at h ⊢
  simp_all

/-- C4 witness: with every hardware primitive succeeding, `reseal` issues
load, reseal, delete, store against the fixed slot. -/
theorem reseal_success_op_sequence_witness :
    (Tpm2Totp.reseal ⟨0, 0, 0, 0⟩ "hunter2").2 =
      [.loadKey Tpm2Totp.NVRAM_INDEX, .reseal Tpm2Totp.PCRS Tpm2Totp.BANKS,
       .deleteKey Tpm2Totp.NVRAM_INDEX, .storeKey Tpm2Totp.NVRAM_INDEX] :=
  reseal_success_op_sequence ⟨0, 0, 0, 0⟩ "hunter2" rfl

/-- C5: when the old blob loads, the password converts, and the hardware
reseal step reports the authentication-failure code, `reseal` returns
`WrongPassword` and the trace stops at [load, reseal]: no delete and no
store was issued against any slot, so the old sealed secret is intact. -/
theorem reseal_wrong_password_no_delete (tpm : TpmBehavior) (password : String)
    (hload : tpm.loadRc = 0) (hnul : passwordHasNul password = false)
    (hauth : tpm.resealRc = RC_WRONG_PASSWORD) :
    (Tpm2Totp.reseal tpm password).1 = .error .WrongPassword ∧
    (Tpm2Totp.reseal tpm password).2 =
      [.loadKey Tpm2Totp.NVRAM_INDEX, .reseal Tpm2Totp.PCRS Tpm2Totp.BANKS] ∧
    ∀ i : Nat, TpmOp.deleteKey i ∉ (Tpm2Totp.reseal tpm password).2 ∧
      TpmOp.storeKey i ∉ (Tpm2Totp.reseal tpm password).2 := by
  have hwrong : TotpError.fromRc RC_WRONG_PASSWORD = .WrongPassword := by decide
  have hz : RC_WRONG_PASSWORD ≠ (0 : Int) := by decide
  unfold Tpm2Totp.reseal
  simp [hload, hnul, hauth, hwrong, hz]

/-- C5 witness: concrete run where the hardware reseal step reports the
wrong-password code. -/
theorem reseal_wrong_password_no_delete_witness :
    (Tpm2Totp.reseal ⟨0, RC_WRONG_PASSWORD, 0, 0⟩ "hunter2").1
        = .error .WrongPassword ∧
    (Tpm2Totp.reseal ⟨0, RC_WRONG_PASSWORD, 0, 0⟩ "hunter2").2 =
      [.loadKey Tpm2Totp.NVRAM_INDEX, .reseal Tpm2Totp.PCRS Tpm2Totp.BANKS] ∧
    ∀ i : Nat,
      TpmOp.deleteKey i ∉ (Tpm2Totp.reseal ⟨0, RC_WRONG_PASSWORD, 0, 0⟩ "hunter2").2 ∧
      TpmOp.storeKey i ∉ (Tpm2Totp.reseal ⟨0, RC_WRONG_PASSWORD, 0, 0⟩ "hunter2").2 :=
  reseal_wrong_password_no_delete ⟨0, RC_WRONG_PASSWORD, 0, 0⟩ "hunter2"
    rfl (by decide) rfl

/-- C6: window ends align to :00 and :30 of each UTC minute, truncated to
whole seconds.  For any minute start `m * 60`: at second 17 the boundary is
second 30 (13 seconds remaining) — at 12:00:17 UTC, `m` is minute 720 of the
day, giving 12:00:30 UTC; at second 31 the boundary is the next minute's
second 0 (29 seconds remaining) — at 12:00:31 UTC giving 12:01:00 UTC. -/
theorem window_end_alignment (m t : Nat) :
    windowEnd (m * 60 + 17) = m * 60 + 30 ∧
    (m * 60 + 30) - (m * 60 + 17) = 13 ∧
    windowEnd (m * 60 + 31) = m * 60 + 60 ∧
    (m * 60 + 60) - (m * 60 + 31) = 29 ∧
    (windowEnd t % 60 = 0 ∨ windowEnd t % 60 = 30) := by
  unfold windowEnd
  split_ifs <;> omega

/-- C6 witness: at minute 720 of the day (12:00 UTC), second 17 gives the
boundary 12:00:30 (13 seconds remaining) and second 31 gives 12:01:00
(29 seconds remaining). -/
theorem window_end_alignment_witness :
    windowEnd (720 * 60 + 17) = 720 * 60 + 30 ∧
    (720 * 60 + 30) - (720 * 60 + 17) = 13 ∧
    windowEnd (720 * 60 + 31) = 720 * 60 + 60 ∧
    (720 * 60 + 60) - (720 * 60 + 31) = 29 ∧
    (windowEnd 43217 % 60 = 0 ∨ windowEnd 43217 % 60 = 30) :=
  window_end_alignment 720 43217

/-- C10: for every current time the computed window boundary is strictly
later than the (second-truncated) current time and at most 30 seconds later,
so the initial remaining-seconds value lies in 1..30. -/
theorem window_end_bounds (t : Nat) :
    t < windowEnd t ∧ windowEnd t ≤ t + 30 := by
  unfold windowEnd
  split_ifs <;> omega

/-- C10 witness: at 12:00:17 UTC (second 43217 of the day) the boundary is
within (0, 30] seconds ahead. -/
theorem window_end_bounds_witness :
    43217 < windowEnd 43217 ∧ windowEnd 43217 ≤ 43217 + 30 :=
  window_end_bounds 43217

/-- C7 (code bug): a reply carrying the known name
`com.system76.PopSec.Error.SecretNotFound` is returned by
`Client::tpm2_totp_show` as the transport-level `Error::Call` wrapping the
dbus error unchanged — the `TryFrom<dbus::Error> for TotpError` bridge,
which would reconstruct `SecretNotFound` from this very reply (second
conjunct), is never applied by the client. -/
theorem tpm2_totp_show_wraps_named_error :
    Client.tpm2TotpShow (.ok ())
        (.error (DBusError.newCustom "com.system76.PopSec.Error.SecretNotFound"
          "No TOTP secret is currently stored"))
      = .error (.Call METHOD_TPM2_TOTP_SHOW
          (DBusError.newCustom "com.system76.PopSec.Error.SecretNotFound"
            "No TOTP secret is currently stored")) ∧
    totpOfDbusError (DBusError.newCustom "com.system76.PopSec.Error.SecretNotFound"
        "No TOTP secret is currently stored")
      = .ok .SecretNotFound :=
  ⟨rfl, rfl⟩

/-- C8: started with effective UID other than 0, the daemon fails with the
startup-class string error before issuing any bus action — in particular no
bus-name registration request — and the process exits with status 1. -/
theorem daemon_requires_root (env : DaemonEnv) (h : env.euid ≠ 0) :
    (daemon env).1 = .error "must be run as root" ∧
    (daemon env).2 = [] ∧
    (∀ n a r q, DaemonAction.requestName n a r q ∉ (daemon env).2) ∧
    mainExitCode env = 1 := by
  have hd : daemon env = (.error "must be run as root", []) := by
    unfold daemon
    simp [h]
  refine ⟨by rw [hd], by rw [hd], ?_, ?_⟩
  · intro n a r q
    rw [hd]
    simp
  · unfold mainExitCode
    rw [hd]

/-- C8 witness: a daemon run as UID 1000 fails before any bus action and
exits with status 1. -/
theorem daemon_requires_root_witness :
    (daemon ⟨1000, .ok (), .ok .PrimaryOwner, .ok ()⟩).1
        = .error "must be run as root" ∧
    (daemon ⟨1000, .ok (), .ok .PrimaryOwner, .ok ()⟩).2 = [] ∧
    (∀ n a r q, DaemonAction.requestName n a r q
        ∉ (daemon ⟨1000, .ok (), .ok .PrimaryOwner, .ok ()⟩).2) ∧
    mainExitCode ⟨1000, .ok (), .ok .PrimaryOwner, .ok ()⟩ = 1 :=
  daemon_requires_root ⟨1000, .ok (), .ok .PrimaryOwner, .ok ()⟩ (by decide)

/-- C9 counterexample: the name request is made with `replace_existing =
true` and `do_not_queue = false`, and its reply value is discarded; when
another process already owns the bus name (reply `InQueue`), the daemon does
not fail to start — it proceeds to serve and the process would exit 0. -/
theorem daemon_queues_counterexample :
    daemon ⟨0, .ok (), .ok .InQueue, .ok ()⟩
      = (.ok (), [.connect, .requestName DBUS_DEST false true false, .serve]) ∧
    mainExitCode ⟨0, .ok (), .ok .InQueue, .ok ()⟩ = 0 :=
  ⟨rfl, rfl⟩

/-- C9 amended: running as root with the bus connected, the daemon issues
exactly one name request, for `com.system76.PopSec`, with
`allow_replacement = false` (its own ownership is non-replaceable),
`replace_existing = true` and `do_not_queue = false`; any successful reply —
whatever its value, including being queued behind an existing owner — lets
startup proceed to serving, and only an error from the request itself aborts
startup. -/
theorem daemon_request_name_flags (env : DaemonEnv)
    (hroot : env.euid = 0) (hconn : env.connectResult = .ok ()) :
    (∀ r, env.requestNameResult = .ok r →
      (daemon env).2 = [.connect, .requestName DBUS_DEST false true false, .serve] ∧
      (daemon env).1 = env.serveResult) ∧
    (∀ e, env.requestNameResult = .error e →
      (daemon env).1 = .error e ∧
      (daemon env).2 = [.connect, .requestName DBUS_DEST false true false]) := by
  constructor
  · intro r hr
    unfold daemon
    simp [hroot, hconn, hr]
  · intro e he
    unfold daemon
    simp [hroot, hconn, he]

/-- C9 amended, witness: with the request replying `InQueue`, startup
proceeds to serving. -/
theorem daemon_request_name_flags_witness :
    (daemon ⟨0, .ok (), .ok .InQueue, .ok ()⟩).2
      = [.connect, .requestName DBUS_DEST false true false, .serve] ∧
    (daemon ⟨0, .ok (), .ok .InQueue, .ok ()⟩).1
      = (⟨0, .ok (), .ok .InQueue, .ok ()⟩ : DaemonEnv).serveResult :=
  (daemon_request_name_flags ⟨0, .ok (), .ok .InQueue, .ok ()⟩ rfl rfl).1
    .InQueue rfl

end PopSec
